import Mathlib

/- Shallow embedding of `cloud/digital_ocean/do_floating_ip_facts.py`.

Python values are modelled by `PyVal`, Python exceptions by `PyErr`, and
fallible Python code returns `Except PyErr`.  `json.loads` (which raises
`ValueError` on a malformed document) is modelled by an abstract parameter
`loads : String → Option PyVal` where `Option.none` stands for the raised
`ValueError`; the transport `fetch_url` is modelled by an abstract
`net : HttpRequest → Response`, and `module.jsonify` by an abstract
`jsonify : Option PyVal → String`.  `core` additionally returns the list of
HTTP requests it issued, so that single-request properties are statable. -/

namespace DoFloatingIpFacts

/- A Python value, as far as this module manipulates them. -/
inductive PyVal where
  | none
  | bool (b : Bool)
  | int (n : Int)
  | str (s : String)
  | list (xs : List PyVal)
  | dict (entries : List (String × PyVal))

/- The Python exceptions that the embedded code can raise. -/
inductive PyErr where
  | valueError
  | typeError
  | keyError
  | indexError
deriving DecidableEq

/- Python `repr`, restricted to the values of `PyVal`; `pyReprList` and
`pyReprEntries` render comma-separated element and entry lists. -/
mutual

def pyRepr : PyVal → String
  | .none => "None"
  | .bool true => "True"
  | .bool false => "False"
  | .int n => toString n
  | .str s => "\x27" ++ s ++ "\x27"
  | .list xs => "[" ++ pyReprList xs ++ "]"
  | .dict es => "\x7b" ++ pyReprEntries es ++ "\x7d"

def pyReprList : List PyVal → String
  | [] => ""
  | [x] => pyRepr x
  | x :: y :: xs => pyRepr x ++ ", " ++ pyReprList (y :: xs)

def pyReprEntries : List (String × PyVal) → String
  | [] => ""
  | [(k, v)] => "\x27" ++ k ++ "\x27: " ++ pyRepr v
  | (k, v) :: e :: es =>
      "\x27" ++ k ++ "\x27: " ++ pyRepr v ++ ", " ++ pyReprEntries (e :: es)

end

/- Python `str`, as applied by `"{}".format(x)`. -/
def pyStr : PyVal → String
  | .str s => s
  | v => pyRepr v

/- Python `x == k` for an integer literal `k` (bools compare as 0/1;
values of other types are never equal to an int). -/
def pyEqInt : PyVal → Int → Bool
  | .int n, k => n == k
  | .bool b, k => (if b then (1 : Int) else 0) == k
  | _, _ => false

/- Python `v[key]` for a string key: dict lookup (`KeyError` when the key is
missing), `TypeError` on any non-dict value, in particular on `None`. -/
def PyVal.subscript (v : PyVal) (key : String) : Except PyErr PyVal :=
  match v with
  | .dict es =>
      match es.lookup key with
      | some x => .ok x
      | Option.none => .error .keyError
  | _ => .error .typeError

/- The `Response` wrapper: `body` is `None` when no transport response
object was obtained, otherwise the text read from it; `info` is the
metadata dictionary returned by `fetch_url`. -/
structure Response where
  body : Option String
  info : List (String × PyVal)

/- `Response.json`: if the body is falsy (absent or empty), parse the
metadata `body` field when present — note this call to `json.loads` is NOT
guarded, so a malformed metadata body raises; otherwise parse the body,
downgrading a `ValueError` to `None`. -/
def Response.json (loads : String → Option PyVal) (r : Response) :
    Except PyErr PyVal :=
  if r.body = Option.none ∨ r.body = some "" then
    match r.info.lookup "body" with
    | some (.str s) =>
        match loads s with
        | some v => .ok v
        | Option.none => .error .valueError
    | some _ => .error .typeError
    | Option.none => .ok .none
  else
    match r.body with
    | some s => .ok ((loads s).getD .none)
    | Option.none => .ok .none

/- `Response.status_code`: `self.info["status"]`, a required field. -/
def Response.status_code (r : Response) : Except PyErr PyVal :=
  match r.info.lookup "status" with
  | some v => .ok v
  | Option.none => .error .keyError

/- The request descriptor handed to `fetch_url`. -/
structure HttpRequest where
  url : String
  data : Option String
  headers : List (String × String)
  method : String
deriving DecidableEq

/- The `Rest` client wrapper: default headers and the fixed base URL. -/
structure Rest where
  headers : List (String × String)
  baseurl : String

/- `Rest.__init__`: stores the headers and the fixed DigitalOcean base. -/
def Rest.make (headers : List (String × String)) : Rest :=
  { headers := headers, baseurl := "https://api.digitalocean.com/v2" }

/- `Rest._url_builder`: strip one leading slash when present and join with
the base by a single slash (`path[0]` raises `IndexError` on ""). -/
def Rest.url_builder (r : Rest) (path : String) : Except PyErr String :=
  match path.data with
  | [] => .error .indexError
  | c :: cs =>
      .ok (r.baseurl ++ "/" ++ (if c = '/' then String.mk cs else path))

/- `Rest.send`: build the URL, serialize `data`, and call `fetch_url` —
with `headers=self.headers`: the per-call `headers` parameter is accepted
but never forwarded.  Returns the issued request with the response. -/
set_option linter.unusedVariables false in
def Rest.send (jsonify : Option PyVal → String) (net : HttpRequest → Response)
    (r : Rest) (method path : String) (data : Option PyVal)
    (headers : Option (List (String × String))) :
    Except PyErr (HttpRequest × Response) :=
  match r.url_builder path with
  | .error e => .error e
  | .ok url =>
      let d := jsonify data
      let req : HttpRequest :=
        { url := url, data := some d, headers := r.headers, method := method }
      .ok (req, net req)

/- `Rest.get`: thin alias over `send` with the verb fixed. -/
def Rest.get (jsonify : Option PyVal → String) (net : HttpRequest → Response)
    (r : Rest) (path : String) (data : Option PyVal)
    (headers : Option (List (String × String))) :
    Except PyErr (HttpRequest × Response) :=
  Rest.send jsonify net r "GET" path data headers

/- `Rest.put`: thin alias over `send` with the verb fixed. -/
def Rest.put (jsonify : Option PyVal → String) (net : HttpRequest → Response)
    (r : Rest) (path : String) (data : Option PyVal)
    (headers : Option (List (String × String))) :
    Except PyErr (HttpRequest × Response) :=
  Rest.send jsonify net r "PUT" path data headers

/- `Rest.post`: thin alias over `send` with the verb fixed. -/
def Rest.post (jsonify : Option PyVal → String) (net : HttpRequest → Response)
    (r : Rest) (path : String) (data : Option PyVal)
    (headers : Option (List (String × String))) :
    Except PyErr (HttpRequest × Response) :=
  Rest.send jsonify net r "POST" path data headers

/- `Rest.delete`: thin alias over `send` with the verb fixed. -/
def Rest.delete (jsonify : Option PyVal → String) (net : HttpRequest → Response)
    (r : Rest) (path : String) (data : Option PyVal)
    (headers : Option (List (String × String))) :
    Except PyErr (HttpRequest × Response) :=
  Rest.send jsonify net r "DELETE" path data headers

/- An Ansible module outcome: `exit_json(changed=..., data=...)` or
`fail_json(msg=...)`. -/
inductive Outcome where
  | exit (changed : Bool) (data : PyVal)
  | fail (msg : String)

/- `core(module)`: build the bearer/content-type headers, issue one GET to
the fixed listing path, and branch on the status code.  The first component
is the list of HTTP requests issued during the call; the message literal
keeps the source's spelling, "Error fecthing facts". -/
def core (jsonify : Option PyVal → String) (net : HttpRequest → Response)
    (loads : String → Option PyVal) (oauth_token : String) :
    List HttpRequest × Except PyErr Outcome :=
  let rest := Rest.make
    [("Authorization", "Bearer " ++ oauth_token),
     ("Content-type", "application/json")]
  match Rest.get jsonify net rest "floating_ips?page=1&per_page=20"
      Option.none Option.none with
  | .error e => ([], .error e)
  | .ok (req, response) =>
      ([req],
        match response.status_code with
        | .error e => .error e
        | .ok status_code =>
            match Response.json loads response with
            | .error e => .error e
            | .ok j =>
                if pyEqInt status_code 200 then
                  .ok (.exit false j)
                else
                  match Response.json loads response with
                  | .error e => .error e
                  | .ok j2 =>
                      match j2.subscript "message" with
                      | .error e => .error e
                      | .ok m =>
                          .ok (.fail ("Error fecthing facts [" ++
                            pyStr status_code ++ ": " ++ pyStr m ++ "]")))

/- `main()`: call `core` and convert any exception it raises into
`fail_json(msg=str(e))`; Python `str` on exceptions is modelled by the
abstract `errStr`. -/
def mainEntry (jsonify : Option PyVal → String) (net : HttpRequest → Response)
    (loads : String → Option PyVal) (errStr : PyErr → String)
    (oauth_token : String) : Outcome :=
  match (core jsonify net loads oauth_token).snd with
  | .ok o => o
  | .error e => .fail (errStr e)

/- Concrete instances of the abstract parameters (`json.loads`, `jsonify`,
the transport, Python `str` on exceptions), used by counterexamples,
witnesses and scenario checks.  `loadsEx` agrees with `json.loads` on every
string it is applied to. -/
def loadsEx : String → Option PyVal := fun s =>
  if s = "\x7b\"message\": \"Unauthorized\"\x7d" then
    some (.dict [("message", .str "Unauthorized")])
  else if s = "\x7b\"floating_ips\": [], \"meta\": \x7b\"total\": 0\x7d\x7d" then
    some (.dict [("floating_ips", .list []),
                 ("meta", .dict [("total", .int 0)])])
  else
    Option.none

/- A concrete `module.jsonify`: `json.dumps`, on the values it meets. -/
def jfyEx : Option PyVal → String := fun d =>
  match d with
  | Option.none => "null"
  | some v => pyRepr v

/- A concrete Python `str` on the modelled exceptions. -/
def pyErrStrEx : PyErr → String
  | .valueError => "Expecting value: line 1 column 1 (char 0)"
  | .typeError => "\x27NoneType\x27 object is not subscriptable"
  | .keyError => "\x27status\x27"
  | .indexError => "string index out of range"

/- A 401 response whose JSON body carries a `message` field. -/
def resp401 : Response :=
  { body := some "\x7b\"message\": \"Unauthorized\"\x7d",
    info := [("status", PyVal.int 401)] }

/- A 200 response with a valid JSON listing body. -/
def resp200 : Response :=
  { body := some "\x7b\"floating_ips\": [], \"meta\": \x7b\"total\": 0\x7d\x7d",
    info := [("status", PyVal.int 200)] }

/- A 500 response with no body at all: its `json` is `None`. -/
def resp500 : Response :=
  { body := Option.none, info := [("status", PyVal.int 500)] }

/- A degenerate metadata dictionary with no `status` field. -/
def respNoStatus : Response :=
  { body := Option.none, info := [] }

/- A transport that always returns the given response. -/
def netOf (r : Response) : HttpRequest → Response := fun _ => r

/- A 502 response with no transport body whose metadata carries a valid
JSON `body` field. -/
def resp502 : Response :=
  { body := Option.none,
    info := [("status", PyVal.int 502),
             ("body", PyVal.str "\x7b\"message\": \"Unauthorized\"\x7d")] }

/- A concrete client wrapper with one default header. -/
def restEx : Rest := Rest.make [("Authorization", "Bearer t")]

/- The one request `core` issues, as a function of its parameters. -/
def coreRequest (jsonify : Option PyVal → String) (token : String) :
    HttpRequest :=
  { url := "https://api.digitalocean.com/v2/floating_ips?page=1&per_page=20",
    data := some (jsonify Option.none),
    headers := [("Authorization", "Bearer " ++ token),
                ("Content-type", "application/json")],
    method := "GET" }

/- The status-code branch of `core`, factored out for reasoning; proved
equal to the body of `core` by `core_eq` below. -/
def coreResult (loads : String → Option PyVal) (response : Response) :
    Except PyErr Outcome :=
  match response.status_code with
  | .error e => .error e
  | .ok status_code =>
      match Response.json loads response with
      | .error e => .error e
      | .ok j =>
          if pyEqInt status_code 200 then
            .ok (.exit false j)
          else
            match Response.json loads response with
            | .error e => .error e
            | .ok j2 =>
                match j2.subscript "message" with
                | .error e => .error e
                | .ok m =>
                    .ok (.fail ("Error fecthing facts [" ++
                      pyStr status_code ++ ": " ++ pyStr m ++ "]"))

theorem core_eq (jsonify : Option PyVal → String) (net : HttpRequest → Response)
    (loads : String → Option PyVal) (token : String) :
    core jsonify net loads token =
      ([coreRequest jsonify token],
        coreResult loads (net (coreRequest jsonify token))) := rfl

theorem core_snd_eq (jsonify : Option PyVal → String) (resp : Response)
    (loads : String → Option PyVal) (token : String) :
    (core jsonify (netOf resp) loads token).snd = coreResult loads resp := rfl

/-- C1 (amended): for every response with a status code other than 200 whose
parsed JSON body contains a `message` field, `core` fails with the message
"Error fecthing facts [<status>: <message>]" — the code's literal spelling
of the word "fecthing". -/
theorem c1_error_message_text (jsonify : Option PyVal → String)
    (loads : String → Option PyVal) (token : String) (resp : Response)
    (st j m : PyVal)
    (hst : Response.status_code resp = .ok st)
    (hne : pyEqInt st 200 = false)
    (hj : Response.json loads resp = .ok j)
    (hm : PyVal.subscript j "message" = .ok m) :
    (core jsonify (netOf resp) loads token).snd =
      .ok (.fail ("Error fecthing facts [" ++ pyStr st ++ ": " ++
        pyStr m ++ "]")) := by
  rw [core_snd_eq]
  unfold coreResult
  rw [hst, hj]
  simp [hne, hm]

/-- C1 (counterexample): on a 401 response whose body says `message`
"Unauthorized", the failure message produced by `core` is spelled
"Error fecthing facts [401: Unauthorized]", which differs from the claimed
"Error fetching facts [401: Unauthorized]". -/
theorem c1_counterexample :
    (core jfyEx (netOf resp401) loadsEx "abc123").snd =
      .ok (.fail "Error fecthing facts [401: Unauthorized]") ∧
    "Error fecthing facts [401: Unauthorized]" ≠
      "Error fetching facts [401: Unauthorized]" :=
  ⟨rfl, by decide⟩

/-- C1 (witness): the amended message law evaluated on the concrete 401
response. -/
theorem c1_witness :
    (core jfyEx (netOf resp401) loadsEx "tok").snd =
      .ok (.fail ("Error fecthing facts [" ++ pyStr (.int 401) ++ ": " ++
        pyStr (.str "Unauthorized") ++ "]")) :=
  c1_error_message_text jfyEx loadsEx "tok" resp401 (.int 401)
    (.dict [("message", .str "Unauthorized")]) (.str "Unauthorized")
    rfl rfl rfl rfl

/-- C2: for every response with status code 200 whose `json` accessor yields
a value, `core` succeeds with `changed = false` and `data` exactly the parsed
JSON body, untransformed. -/
theorem c2_success_result (jsonify : Option PyVal → String)
    (loads : String → Option PyVal) (token : String) (resp : Response)
    (j : PyVal)
    (hst : Response.status_code resp = .ok (.int 200))
    (hj : Response.json loads resp = .ok j) :
    (core jsonify (netOf resp) loads token).snd = .ok (.exit false j) := by
  rw [core_snd_eq]
  unfold coreResult
  rw [hst, hj]
  simp [pyEqInt]

/-- C2 (witness): the success law evaluated on the concrete 200 response. -/
theorem c2_witness :
    (core jfyEx (netOf resp200) loadsEx "abc123").snd =
      .ok (.exit false (.dict [("floating_ips", .list []),
                               ("meta", .dict [("total", .int 0)])])) :=
  c2_success_result jfyEx loadsEx "abc123" resp200
    (.dict [("floating_ips", .list []), ("meta", .dict [("total", .int 0)])])
    rfl rfl

/-- C3 (counterexample): with an absent body and a metadata `body` field
holding malformed JSON text, the `json` accessor raises a `ValueError`
instead of returning `None`, refuting the claim that it never raises. -/
theorem c3_counterexample :
    Response.json loadsEx
        { body := Option.none, info := [("body", PyVal.str "oops")] } =
      .error PyErr.valueError := rfl

/-- C3 (amended): a present nonempty body that is not valid JSON yields
`None` without raising, and an absent body with no metadata `body` field
yields `None`; however, when the body is absent or empty and the metadata
`body` field holds malformed JSON text, the accessor raises the decode
error instead of returning `None`. -/
theorem c3_json_soft_failure :
    (∀ (loads : String → Option PyVal) (s : String)
       (info : List (String × PyVal)),
        s ≠ "" → loads s = Option.none →
        Response.json loads { body := some s, info := info } =
          .ok PyVal.none)
    ∧ (∀ (loads : String → Option PyVal) (b : Option String)
         (info : List (String × PyVal)),
        (b = Option.none ∨ b = some "") →
        info.lookup "body" = Option.none →
        Response.json loads { body := b, info := info } = .ok PyVal.none)
    ∧ (∀ (loads : String → Option PyVal) (b : Option String) (s : String)
         (info : List (String × PyVal)),
        (b = Option.none ∨ b = some "") →
        info.lookup "body" = some (.str s) → loads s = Option.none →
        Response.json loads { body := b, info := info } =
          .error PyErr.valueError) := by
  refine ⟨?_, ?_, ?_⟩
  · intro loads s info hs hl
    unfold Response.json
    simp [hs, hl]
  · intro loads b info hb hl
    unfold Response.json
    rcases hb with h | h <;> subst h <;> simp [hl]
  · intro loads b s info hb hl hs
    unfold Response.json
    rcases hb with h | h <;> subst h <;> simp [hl, hs]

/-- C3 (witness): the three branches of the amended accessor law evaluated
on concrete inputs. -/
theorem c3_witness :
    Response.json loadsEx { body := some "oops", info := [] } =
        .ok PyVal.none ∧
    Response.json loadsEx { body := Option.none, info := [] } =
        .ok PyVal.none ∧
    Response.json loadsEx
        { body := Option.none, info := [("body", PyVal.str "nope")] } =
      .error PyErr.valueError :=
  ⟨c3_json_soft_failure.1 loadsEx "oops" [] (by decide) rfl,
   c3_json_soft_failure.2.1 loadsEx Option.none [] (Or.inl rfl) rfl,
   c3_json_soft_failure.2.2 loadsEx Option.none "nope"
     [("body", PyVal.str "nope")] (Or.inl rfl) rfl rfl⟩

/-- C4: for every response with a status code other than 200 whose `json`
accessor yields `None`, the message construction of `core` subscripts into
`None` and raises a `TypeError` instead of producing the intended failure
message. -/
theorem c4_none_subscript_raises (jsonify : Option PyVal → String)
    (loads : String → Option PyVal) (token : String) (resp : Response)
    (st : PyVal)
    (hst : Response.status_code resp = .ok st)
    (hne : pyEqInt st 200 = false)
    (hj : Response.json loads resp = .ok PyVal.none) :
    (core jsonify (netOf resp) loads token).snd = .error PyErr.typeError := by
  rw [core_snd_eq]
  unfold coreResult
  rw [hst, hj]
  simp [hne, PyVal.subscript]

/-- C4 (witness): the secondary-failure law evaluated on the concrete 500
response with an empty body. -/
theorem c4_witness :
    (core jfyEx (netOf resp500) loadsEx "t").snd = .error PyErr.typeError :=
  c4_none_subscript_raises jfyEx loadsEx "t" resp500 (.int 500) rfl rfl rfl

/-- C5: for every token, the single request issued by `core` carries exactly
the headers `Authorization: Bearer <token>` — the literal concatenation of
"Bearer " with the token, whatever its content — and
`Content-type: application/json`. -/
theorem c5_auth_header :
    ∀ (jsonify : Option PyVal → String) (net : HttpRequest → Response)
      (loads : String → Option PyVal) (token : String),
      (core jsonify net loads token).fst.map HttpRequest.headers =
        [[("Authorization", "Bearer " ++ token),
          ("Content-type", "application/json")]] :=
  fun _ _ _ _ => rfl

/-- C6: `_url_builder` joins the fixed base and the path with "/" after
stripping one leading slash when present, and `core` issues exactly one
request — a GET to
"https://api.digitalocean.com/v2/floating_ips?page=1&per_page=20". -/
theorem c6_single_get_request :
    (∀ (r : Rest) (path : String),
        Rest.url_builder r ("/" ++ path) = .ok (r.baseurl ++ "/" ++ path))
    ∧ (∀ (r : Rest) (path : String) (c : Char) (cs : List Char),
        path.data = c :: cs → c ≠ '/' →
        Rest.url_builder r path = .ok (r.baseurl ++ "/" ++ path))
    ∧ (∀ (jsonify : Option PyVal → String) (net : HttpRequest → Response)
         (loads : String → Option PyVal) (token : String),
        (core jsonify net loads token).fst =
          [{ url := "https://api.digitalocean.com/v2/floating_ips?page=1&per_page=20",
             data := some (jsonify Option.none),
             headers := [("Authorization", "Bearer " ++ token),
                         ("Content-type", "application/json")],
             method := "GET" }]) := by
  refine ⟨?_, ?_, ?_⟩
  · intro r path
    cases path with
    | mk l => rfl
  · intro r path c cs hd hc
    unfold Rest.url_builder
    rw [hd]
    simp [hc]
  · intro jsonify net loads token
    rfl

/-- C6 (witness): the slash-stripping law evaluated on concrete paths. -/
theorem c6_witness :
    ("droplets" : String).data = 'd' :: "roplets".data ∧
    Rest.url_builder restEx "droplets" =
      .ok (restEx.baseurl ++ "/" ++ "droplets") :=
  ⟨rfl, c6_single_get_request.2.1 restEx "droplets" 'd' "roplets".data rfl
    (by decide)⟩

/-- C7 (counterexample): a `send` with the per-call header override
`X-Extra` issues a request whose headers do not contain `X-Extra` at all:
the override is not merged in. -/
theorem c7_counterexample :
    (Rest.send jfyEx (netOf resp200) restEx "GET" "droplets" Option.none
        (some [("X-Extra", "1")])).map
        (fun pr => pr.1.headers.lookup "X-Extra") =
      .ok Option.none := rfl

/-- C7 (amended): `get`, `put`, `post` and `delete` are thin aliases of
`send` with the verb fixed, but the per-call `headers` argument is ignored:
every issued request carries exactly the configured default headers. -/
theorem c7_headers_ignored :
    (∀ (jsonify : Option PyVal → String) (net : HttpRequest → Response)
       (r : Rest) (path : String) (data : Option PyVal)
       (hs : Option (List (String × String))),
        Rest.get jsonify net r path data hs =
          Rest.send jsonify net r "GET" path data hs)
    ∧ (∀ (jsonify : Option PyVal → String) (net : HttpRequest → Response)
         (r : Rest) (path : String) (data : Option PyVal)
         (hs : Option (List (String × String))),
        Rest.put jsonify net r path data hs =
          Rest.send jsonify net r "PUT" path data hs)
    ∧ (∀ (jsonify : Option PyVal → String) (net : HttpRequest → Response)
         (r : Rest) (path : String) (data : Option PyVal)
         (hs : Option (List (String × String))),
        Rest.post jsonify net r path data hs =
          Rest.send jsonify net r "POST" path data hs)
    ∧ (∀ (jsonify : Option PyVal → String) (net : HttpRequest → Response)
         (r : Rest) (path : String) (data : Option PyVal)
         (hs : Option (List (String × String))),
        Rest.delete jsonify net r path data hs =
          Rest.send jsonify net r "DELETE" path data hs)
    ∧ (∀ (jsonify : Option PyVal → String) (net : HttpRequest → Response)
         (r : Rest) (method path : String) (data : Option PyVal)
         (hs : Option (List (String × String)))
         (req : HttpRequest) (resp : Response),
        Rest.send jsonify net r method path data hs = .ok (req, resp) →
        req.headers = r.headers) := by
  refine ⟨fun _ _ _ _ _ _ => rfl, fun _ _ _ _ _ _ => rfl,
    fun _ _ _ _ _ _ => rfl, fun _ _ _ _ _ _ => rfl, ?_⟩
  intro jsonify net r method path data hs req resp hsend
  unfold Rest.send at hsend
  cases hurl : r.url_builder path with
  | error e => rw [hurl] at hsend; exact absurd hsend (by simp)
  | ok url =>
    rw [hurl] at hsend
    simp only [Except.ok.injEq, Prod.mk.injEq] at hsend
    rw [← hsend.1]

/-- C7 (witness): the default-headers law evaluated on a concrete `send`
carrying a per-call override. -/
theorem c7_witness :
    Rest.send jfyEx (netOf resp200) restEx "GET" "droplets" Option.none
        (some [("X-Extra", "1")]) =
      .ok ({ url := "https://api.digitalocean.com/v2/droplets",
             data := some "null",
             headers := [("Authorization", "Bearer t")],
             method := "GET" }, resp200) ∧
    ([("Authorization", "Bearer t")] : List (String × String)) =
      restEx.headers :=
  ⟨rfl,
   c7_headers_ignored.2.2.2.2 jfyEx (netOf resp200) restEx "GET" "droplets"
     Option.none (some [("X-Extra", "1")])
     { url := "https://api.digitalocean.com/v2/droplets",
       data := some "null",
       headers := [("Authorization", "Bearer t")],
       method := "GET" }
     resp200 rfl⟩

/-- C8: with a falsy body (absent or empty) and a metadata `body` field
holding valid JSON text, the `json` accessor returns the value parsed from
that field; with no metadata `body` field it returns `None`. -/
theorem c8_metadata_fallback :
    (∀ (loads : String → Option PyVal) (b : Option String)
       (info : List (String × PyVal)) (s : String) (v : PyVal),
        (b = Option.none ∨ b = some "") →
        info.lookup "body" = some (PyVal.str s) → loads s = some v →
        Response.json loads { body := b, info := info } = .ok v)
    ∧ (∀ (loads : String → Option PyVal) (b : Option String)
         (info : List (String × PyVal)),
        (b = Option.none ∨ b = some "") →
        info.lookup "body" = Option.none →
        Response.json loads { body := b, info := info } =
          .ok PyVal.none) := by
  constructor
  · intro loads b info s v hb hl hs
    unfold Response.json
    rcases hb with h | h <;> subst h <;> simp [hl, hs]
  · intro loads b info hb hl
    unfold Response.json
    rcases hb with h | h <;> subst h <;> simp [hl]

/-- C8 (witness): the fallback law evaluated on the concrete 502 response
whose metadata carries a JSON `body` field, and on an empty metadata
dictionary. -/
theorem c8_witness :
    Response.json loadsEx resp502 =
        .ok (.dict [("message", .str "Unauthorized")]) ∧
    Response.json loadsEx respNoStatus = .ok PyVal.none :=
  ⟨c8_metadata_fallback.1 loadsEx Option.none resp502.info
     "\x7b\"message\": \"Unauthorized\"\x7d"
     (.dict [("message", .str "Unauthorized")]) (Or.inl rfl) rfl rfl,
   c8_metadata_fallback.2 loadsEx Option.none [] (Or.inl rfl) rfl⟩

/-- C9: every exception raised by `core` is caught exactly once at the top
level and converted into a failure whose message is the string form of the
exception; when `core` does not raise its outcome is passed through, and
the invocation always terminates in a failure or a success outcome. -/
theorem c9_top_level_catch :
    ∀ (jsonify : Option PyVal → String) (net : HttpRequest → Response)
      (loads : String → Option PyVal) (errStr : PyErr → String)
      (token : String),
      (∀ e, (core jsonify net loads token).snd = .error e →
          mainEntry jsonify net loads errStr token = .fail (errStr e))
      ∧ (∀ o, (core jsonify net loads token).snd = .ok o →
          mainEntry jsonify net loads errStr token = o)
      ∧ ((∃ m, mainEntry jsonify net loads errStr token = .fail m)
         ∨ (∃ b d, mainEntry jsonify net loads errStr token =
              .exit b d)) := by
  intro jsonify net loads errStr token
  refine ⟨?_, ?_, ?_⟩
  · intro e he
    unfold mainEntry
    rw [he]
  · intro o ho
    unfold mainEntry
    rw [ho]
  · unfold mainEntry
    cases hc : (core jsonify net loads token).snd with
    | error e => exact Or.inl ⟨errStr e, rfl⟩
    | ok o =>
      cases o with
      | exit b d => exact Or.inr ⟨b, d, rfl⟩
      | fail m => exact Or.inl ⟨m, rfl⟩

/-- C9 (witness): the top-level catch evaluated on a response whose metadata
lacks the `status` field, so that `core` raises a `KeyError`. -/
theorem c9_witness :
    mainEntry jfyEx (netOf respNoStatus) loadsEx pyErrStrEx "t" =
      .fail (pyErrStrEx PyErr.keyError) :=
  (c9_top_level_catch jfyEx (netOf respNoStatus) loadsEx pyErrStrEx "t").1
    PyErr.keyError rfl

/-- C10: the `json` accessor is deterministic — it depends only on the body
and the metadata dictionary, so the second read performed by the failure
branch of `core` returns the same value as the first. -/
theorem c10_json_deterministic :
    ∀ (loads : String → Option PyVal) (r1 r2 : Response),
      r1.body = r2.body → r1.info = r2.info →
      Response.json loads r1 = Response.json loads r2 := by
  intro loads r1 r2 hb hi
  cases r1
  cases r2
  cases hb
  cases hi
  rfl

/-- C10 (witness): determinism of the accessor evaluated on the concrete
401 response. -/
theorem c10_witness :
    Response.json loadsEx { body := resp401.body, info := resp401.info } =
      Response.json loadsEx resp401 :=
  c10_json_deterministic loadsEx
    { body := resp401.body, info := resp401.info } resp401 rfl rfl

end DoFloatingIpFacts
